import Mathlib

/-!
Verification of the two-detention-ponds-in-series simulation (src/final.py).

The development shallowly embeds the numerical core of the script over the
real numbers: the inflow hydrograph q_i_1, the ODE right-hand side f with
its in-evaluation depth clamping, the orifice discharge q_o_2, the
post-integration trajectory clamp loop, and the orchestration constants
(parameters and the linspace time grid).  Python float arithmetic is
modelled by exact real arithmetic; math.sqrt, which raises on a negative
argument, is modelled by an Option-valued square root.
-/

open Real Set Topology Filter

namespace TwoPonds

/-- Inflow hydrograph from src/final.py (function q_i_1): a triangular
pulse rising on [3600, 12600), falling on [12600, 21600), zero elsewhere. -/
noncomputable def q_i_1 (t : ℝ) : ℝ :=
  if 3600 ≤ t ∧ t < 12600 then 1 / 4500 * (t - 3600)
  else if 12600 ≤ t ∧ t < 21600 then -1 / 4500 * (t - 21600)
  else 0

/-- Model of Python math.sqrt: defined (as Real.sqrt) on nonnegative
arguments, raises (none) on negative arguments. -/
noncomputable def mathSqrt (x : ℝ) : Option ℝ :=
  if 0 ≤ x then some (Real.sqrt x) else none

/-- The clamping applied to one depth component inside the right-hand side
f of src/final.py: first the cap at the maximum height H, then the floor
at 0, in exactly the order of the two if statements of the source. -/
noncomputable def clampRHS (h H : ℝ) : ℝ :=
  let hcap := if h > H then H else h
  if hcap < 0 then 0 else hcap

/-- ODE right-hand side from src/final.py (function f): clamps both depths,
then returns the derivative pair.  The square roots are taken through
mathSqrt, so the value is none exactly when the Python code would raise. -/
noncomputable def f (y : ℝ × ℝ) (t D1 D2 A1 A2 H1 H2 : ℝ) : Option (ℝ × ℝ) :=
  let h1 := clampRHS y.1 H1
  let h2 := clampRHS y.2 H2
  match mathSqrt (2 * 9.8 * h1), mathSqrt (2 * 9.8 * h2) with
  | some s1, some s2 =>
      some ((q_i_1 t - Real.pi * D1 ^ 2 / 4 * s1) / A1,
            (Real.pi * D1 ^ 2 / 4 * s1 - Real.pi * D2 ^ 2 / 4 * s2) / A2)
  | _, _ => none

/-- Outflow discharge from src/final.py (function q_o_2), with math.sqrt
modelled by mathSqrt. -/
noncomputable def q_o_2 (h2 D2 : ℝ) : Option ℝ :=
  (mathSqrt (2 * 9.8 * h2)).map (fun s => Real.pi * D2 ^ 2 / 4 * s)

/-- Clamp of a depth to the interval [0, H], written from the words of the
spec (clamp h to [0, H]). -/
noncomputable def clampDepth (h H : ℝ) : ℝ := max 0 (min h H)

/-- OrificeDischarge written from the words of the spec:
rate = pi D^2 / 4 * sqrt (2 g h) with g = 9.8. -/
noncomputable def OrificeDischarge_spec (h D : ℝ) : ℝ :=
  Real.pi * D ^ 2 / 4 * Real.sqrt (2 * 9.8 * h)

/-- PondSystemDynamics written from the words of the spec: clamp h1 to
[0, H1] and h2 to [0, H2], let outflow1 (also the inflow of pond 2) and
outflow2 be the orifice discharges at the clamped depths, and return
(dh1/dt, dh2/dt) = ((inflow - outflow1) / A1, (outflow1 - outflow2) / A2). -/
noncomputable def PondSystemDynamics_spec (y : ℝ × ℝ) (t D1 D2 A1 A2 H1 H2 : ℝ) :
    ℝ × ℝ :=
  let h1c := clampDepth y.1 H1
  let h2c := clampDepth y.2 H2
  let outflow1 := Real.pi * D1 ^ 2 / 4 * Real.sqrt (2 * 9.8 * h1c)
  let outflow2 := Real.pi * D2 ^ 2 / 4 * Real.sqrt (2 * 9.8 * h2c)
  ((q_i_1 t - outflow1) / A1, (outflow1 - outflow2) / A2)

/-- The clamping applied to one component of one sample by the
post-integration fix-up loop of src/final.py: first the floor at 0, then
the cap at H, in exactly the order of the if statements of the loop body. -/
noncomputable def clampLowHigh (x H : ℝ) : ℝ :=
  let xlow := if x < 0 then 0 else x
  if xlow > H then H else xlow

/-- The post-integration clamp pass of src/final.py applied to a whole
trajectory of (h1, h2) samples. -/
noncomputable def trajectoryClamp (traj : List (ℝ × ℝ)) (H1 H2 : ℝ) :
    List (ℝ × ℝ) :=
  traj.map (fun s => (clampLowHigh s.1 H1, clampLowHigh s.2 H2))

/-- Simulation parameters, the SimulationParameters value of the spec. -/
structure Params where
  D1 : ℝ
  D2 : ℝ
  A1 : ℝ
  A2 : ℝ
  H1 : ℝ
  H2 : ℝ
  h1_0 : ℝ
  h2_0 : ℝ

/-- Modelled from the spec: the validity condition of SimulationParameters
(section 3 and the InvalidParameter clause of section 7); src/final.py
contains no code checking it. -/
def paramsValid_spec (p : Params) : Prop :=
  0 < p.D1 ∧ 0 < p.D2 ∧ 0 < p.A1 ∧ 0 < p.A2 ∧ 0 < p.H1 ∧ 0 < p.H2 ∧
    0 ≤ p.h1_0 ∧ p.h1_0 ≤ p.H1 ∧ 0 ≤ p.h2_0 ∧ p.h2_0 ≤ p.H2

/-- Observable steps of the top-level script of src/final.py. -/
inductive ScriptStep where
  | setParams : Params → ScriptStep
  | raiseInvalidParameter : ScriptStep
  | invokeIntegrator : ScriptStep
  | clampTrajectory : ScriptStep
  | plot : ScriptStep

/-- Control flow of the top-level script of src/final.py, with the
hard-coded parameter values generalized: the script is straight-line code
that assigns the parameters, calls odeint, runs the clamp loop and plots;
it has no conditional branch and in particular no validation step. -/
def scriptTrace (p : Params) : List ScriptStep :=
  [ScriptStep.setParams p, ScriptStep.invokeIntegrator,
    ScriptStep.clampTrajectory, ScriptStep.plot]

/-- Parameter D1 from src/final.py. -/
noncomputable def D1 : ℝ := 0.2

/-- Parameter D2 from src/final.py. -/
noncomputable def D2 : ℝ := 0.2

/-- Parameter A1 from src/final.py. -/
noncomputable def A1 : ℝ := 2000

/-- Parameter A2 from src/final.py. -/
noncomputable def A2 : ℝ := 1000

/-- Parameter H1 from src/final.py. -/
noncomputable def H1 : ℝ := 5

/-- Parameter H2 from src/final.py. -/
noncomputable def H2 : ℝ := 4

/-- Initial depth h1_0 from src/final.py. -/
noncomputable def h1_0 : ℝ := 0

/-- Initial depth h2_0 from src/final.py. -/
noncomputable def h2_0 : ℝ := 0

/-- The parameter record assembled by the script of src/final.py. -/
noncomputable def referenceParams : Params :=
  ⟨D1, D2, A1, A2, H1, H2, h1_0, h2_0⟩

/-- Model of numpy.linspace a b n: n evenly spaced samples from a to b,
endpoint included. -/
noncomputable def linspace (a b : ℝ) (n : ℕ) : List ℝ :=
  (List.range n).map (fun i : ℕ => a + (b - a) * (i : ℝ) / ((n : ℝ) - 1))

/-- The time grid t of src/final.py: linspace 0 (80 * 3600 + 1) 1000. -/
noncomputable def t : List ℝ := linspace 0 (80 * 3600 + 1) 1000

/-! Helper lemmas. -/

/-- On the whole closed ramp-up interval, q_i_1 is given by the ramp-up
line; at the right endpoint 12600 the ramp-down branch takes over but has
the same value. -/
lemma q_i_1_ramp_up (s : ℝ) (hl : 3600 ≤ s) (hr : s ≤ 12600) :
    q_i_1 s = 1 / 4500 * (s - 3600) := by
  rcases lt_or_eq_of_le hr with h | h
  · rw [q_i_1, if_pos ⟨hl, h⟩]
  · subst h
    rw [q_i_1, if_neg (by norm_num), if_pos (by norm_num)]
    norm_num

/-- On the whole closed ramp-down interval, q_i_1 is given by the
ramp-down line; at the right endpoint 21600 the zero branch takes over but
has the same value. -/
lemma q_i_1_ramp_down (s : ℝ) (hl : 12600 ≤ s) (hr : s ≤ 21600) :
    q_i_1 s = -1 / 4500 * (s - 21600) := by
  rcases lt_or_eq_of_le hr with h | h
  · rw [q_i_1, if_neg (by rintro ⟨-, h2⟩; linarith), if_pos ⟨hl, h⟩]
  · subst h
    rw [q_i_1, if_neg (by norm_num), if_neg (by norm_num)]
    norm_num

lemma clampRHS_eq_clampDepth (h H : ℝ) : clampRHS h H = clampDepth h H := by
  simp only [clampRHS, clampDepth]
  split_ifs with h1 h2 h2
  · rw [min_eq_right (le_of_lt h1), max_eq_left (le_of_lt h2)]
  · rw [min_eq_right (le_of_lt h1), max_eq_right (not_lt.mp h2)]
  · rw [min_eq_left (not_lt.mp h1), max_eq_left (le_of_lt h2)]
  · rw [min_eq_left (not_lt.mp h1), max_eq_right (not_lt.mp h2)]

lemma clampDepth_nonneg (h H : ℝ) : 0 ≤ clampDepth h H := le_max_left 0 _

/-- The right-hand side evaluation of src/final.py never hits the raising
branch of math.sqrt and computes exactly the derivative pair of the spec. -/
lemma f_eval (y : ℝ × ℝ) (v D1 D2 A1 A2 H1 H2 : ℝ) :
    f y v D1 D2 A1 A2 H1 H2 = some (PondSystemDynamics_spec y v D1 D2 A1 A2 H1 H2) := by
  have e1 := clampRHS_eq_clampDepth y.1 H1
  have e2 := clampRHS_eq_clampDepth y.2 H2
  have s1 : mathSqrt (2 * 9.8 * clampRHS y.1 H1) =
      some (Real.sqrt (2 * 9.8 * clampDepth y.1 H1)) := by
    rw [e1, mathSqrt, if_pos (by nlinarith [clampDepth_nonneg y.1 H1])]
  have s2 : mathSqrt (2 * 9.8 * clampRHS y.2 H2) =
      some (Real.sqrt (2 * 9.8 * clampDepth y.2 H2)) := by
    rw [e2, mathSqrt, if_pos (by nlinarith [clampDepth_nonneg y.2 H2])]
  simp only [f, PondSystemDynamics_spec, s1, s2]

/-- Evaluation of q_o_2 on a nonnegative depth: the sqrt succeeds and the
result is the spec formula. -/
lemma q_o_2_eval (h D : ℝ) (hh : 0 ≤ h) :
    q_o_2 h D = some (OrificeDischarge_spec h D) := by
  rw [q_o_2, mathSqrt, if_pos (by nlinarith)]
  rfl

/-! Theorems for the claims. -/

/-- C4: the inflow hydrograph is the ramp-up line on [3600, 12600), the
ramp-down line on [12600, 21600), and zero before 3600 and from 21600 on. -/
theorem q_i_1_piecewise (s : ℝ) :
    (3600 ≤ s ∧ s < 12600 → q_i_1 s = (s - 3600) / 4500) ∧
    (12600 ≤ s ∧ s < 21600 → q_i_1 s = -(s - 21600) / 4500) ∧
    (s < 3600 ∨ 21600 ≤ s → q_i_1 s = 0) := by
  refine ⟨fun h => ?_, fun h => ?_, fun h => ?_⟩
  · rw [q_i_1_ramp_up s h.1 (le_of_lt h.2)]; ring
  · rw [q_i_1_ramp_down s h.1 (le_of_lt h.2)]; ring
  · rcases h with h | h
    · rw [q_i_1, if_neg (by rintro ⟨h1, -⟩; linarith),
        if_neg (by rintro ⟨h1, -⟩; linarith)]
    · rw [q_i_1, if_neg (by rintro ⟨-, h2⟩; linarith),
        if_neg (by rintro ⟨-, h2⟩; linarith)]

/-- C4 witness: the three branches evaluated at 5000, 13000 and 100. -/
theorem q_i_1_piecewise_witness :
    q_i_1 5000 = (5000 - 3600) / 4500 ∧
    q_i_1 13000 = -(13000 - 21600) / 4500 ∧
    q_i_1 100 = 0 :=
  ⟨(q_i_1_piecewise 5000).1 (by norm_num),
   (q_i_1_piecewise 13000).2.1 (by norm_num),
   (q_i_1_piecewise 100).2.2 (by norm_num)⟩

/-- C5: for a nonnegative depth, q_o_2 returns (without raising) exactly
pi D^2 / 4 * sqrt (2 g h) with g = 9.8, the formula of the spec; being a
pure function of its arguments it is deterministic and side-effect free. -/
theorem q_o_2_spec_formula (h D : ℝ) (hh : 0 ≤ h) :
    q_o_2 h D = some (OrificeDischarge_spec h D) :=
  q_o_2_eval h D hh

/-- C5 witness: evaluation at depth 0 and diameter 1. -/
theorem q_o_2_spec_formula_witness :
    q_o_2 0 1 = some (OrificeDischarge_spec 0 1) :=
  q_o_2_spec_formula 0 1 le_rfl

/-- C8: discharge at depth zero is zero, and for a fixed diameter the
discharge is monotone in the depth on nonnegative depths. -/
theorem q_o_2_zero_and_monotone (D : ℝ) (hD : 0 < D) :
    q_o_2 0 D = some 0 ∧
    ∀ ha hb : ℝ, 0 ≤ ha → ha ≤ hb →
      ∃ a b, q_o_2 ha D = some a ∧ q_o_2 hb D = some b ∧ a ≤ b := by
  constructor
  · rw [q_o_2_eval 0 D le_rfl, OrificeDischarge_spec]
    norm_num
  · intro ha hb h0 hab
    refine ⟨OrificeDischarge_spec ha D, OrificeDischarge_spec hb D,
      q_o_2_eval ha D h0, q_o_2_eval hb D (le_trans h0 hab), ?_⟩
    have hsq : Real.sqrt (2 * 9.8 * ha) ≤ Real.sqrt (2 * 9.8 * hb) :=
      Real.sqrt_le_sqrt (by nlinarith)
    have hc : 0 ≤ Real.pi * D ^ 2 / 4 := by positivity
    exact mul_le_mul_of_nonneg_left hsq hc

/-- C8 witness: zero discharge at depth 0 and monotonicity between depths
0 and 1, at diameter 1. -/
theorem q_o_2_zero_and_monotone_witness :
    q_o_2 0 1 = some 0 ∧
    ∃ a b, q_o_2 0 1 = some a ∧ q_o_2 1 1 = some b ∧ a ≤ b :=
  ⟨(q_o_2_zero_and_monotone 1 one_pos).1,
   (q_o_2_zero_and_monotone 1 one_pos).2 0 1 le_rfl zero_le_one⟩

/-- C1: the right-hand side first clamps each depth to its [0, H] range
and then returns exactly the derivative pair of the spec, with the
discharge of pond 1 appearing both as outflow of pond 1 and inflow of
pond 2. -/
theorem f_matches_spec (y : ℝ × ℝ) (v D1 D2 A1 A2 H1 H2 : ℝ) :
    f y v D1 D2 A1 A2 H1 H2 = some (PondSystemDynamics_spec y v D1 D2 A1 A2 H1 H2) :=
  f_eval y v D1 D2 A1 A2 H1 H2

/-- C6: on every input state, even one with negative depths or depths
above the maxima, both arguments handed to the square root inside f are
nonnegative after the unconditional clamp, so the evaluation never reaches
the raising branch of math.sqrt. -/
theorem f_sqrt_args_nonneg (y : ℝ × ℝ) (v D1 D2 A1 A2 H1 H2 : ℝ) :
    0 ≤ 2 * 9.8 * clampRHS y.1 H1 ∧ 0 ≤ 2 * 9.8 * clampRHS y.2 H2 ∧
    (f y v D1 D2 A1 A2 H1 H2).isSome = true := by
  have n1 : (0 : ℝ) ≤ clampRHS y.1 H1 := by
    rw [clampRHS_eq_clampDepth]; exact clampDepth_nonneg _ _
  have n2 : (0 : ℝ) ≤ clampRHS y.2 H2 := by
    rw [clampRHS_eq_clampDepth]; exact clampDepth_nonneg _ _
  refine ⟨by nlinarith, by nlinarith, ?_⟩
  rw [f_eval]
  rfl

/-- One component of the fix-up loop lands in [0, H] whenever H is
nonnegative. -/
lemma clampLowHigh_mem (x H : ℝ) (hH : 0 ≤ H) :
    0 ≤ clampLowHigh x H ∧ clampLowHigh x H ≤ H := by
  simp only [clampLowHigh]
  split_ifs <;> constructor <;> linarith

/-- One component of the fix-up loop is the identity on values already in
[0, H]. -/
lemma clampLowHigh_id (x H : ℝ) (h0 : 0 ≤ x) (hH : x ≤ H) :
    clampLowHigh x H = x := by
  simp only [clampLowHigh]
  split_ifs <;> linarith

/-- One component of the fix-up loop is idempotent. -/
lemma clampLowHigh_idem (x H : ℝ) :
    clampLowHigh (clampLowHigh x H) H = clampLowHigh x H := by
  simp only [clampLowHigh]
  split_ifs <;> rfl

/-- C2: every sample of the output of the post-integration clamp pass lies
in [0, H1] times [0, H2], whatever out-of-range values the raw trajectory
holds. -/
theorem trajectoryClamp_invariant (traj : List (ℝ × ℝ)) (H1 H2 : ℝ)
    (hH1 : 0 < H1) (hH2 : 0 < H2) :
    ∀ s ∈ trajectoryClamp traj H1 H2,
      0 ≤ s.1 ∧ s.1 ≤ H1 ∧ 0 ≤ s.2 ∧ s.2 ≤ H2 := by
  intro s hs
  rw [trajectoryClamp, List.mem_map] at hs
  obtain ⟨a, -, rfl⟩ := hs
  obtain ⟨u1, u2⟩ := clampLowHigh_mem a.1 H1 (le_of_lt hH1)
  obtain ⟨v1, v2⟩ := clampLowHigh_mem a.2 H2 (le_of_lt hH2)
  exact ⟨u1, u2, v1, v2⟩

/-- C2 witness: the clamp of the out-of-range raw sample (-1, 10) with
H1 = 5 and H2 = 4 satisfies the invariant. -/
theorem trajectoryClamp_invariant_witness :
    0 ≤ ((0 : ℝ), (4 : ℝ)).1 ∧ ((0 : ℝ), (4 : ℝ)).1 ≤ 5 ∧
    0 ≤ ((0 : ℝ), (4 : ℝ)).2 ∧ ((0 : ℝ), (4 : ℝ)).2 ≤ 4 :=
  trajectoryClamp_invariant [(-1, 10)] 5 4 (by norm_num) (by norm_num)
    ((0 : ℝ), (4 : ℝ))
    (by
      simp only [trajectoryClamp, clampLowHigh, List.map_cons, List.map_nil,
        List.mem_singleton]
      norm_num)

/-- C10: the post-integration clamp pass rewrites only out-of-range
values — a sample that already satisfies the invariant is left unchanged
at its position, even when other samples of the same trajectory are out
of range — and the pass is idempotent. -/
theorem trajectoryClamp_frame (traj : List (ℝ × ℝ)) (H1 H2 : ℝ) :
    (trajectoryClamp traj H1 H2).length = traj.length ∧
    (∀ (i : ℕ) (hi : i < traj.length)
        (hi2 : i < (trajectoryClamp traj H1 H2).length),
      0 ≤ (traj.get ⟨i, hi⟩).1 → (traj.get ⟨i, hi⟩).1 ≤ H1 →
      0 ≤ (traj.get ⟨i, hi⟩).2 → (traj.get ⟨i, hi⟩).2 ≤ H2 →
      (trajectoryClamp traj H1 H2).get ⟨i, hi2⟩ = traj.get ⟨i, hi⟩) ∧
    trajectoryClamp (trajectoryClamp traj H1 H2) H1 H2 =
      trajectoryClamp traj H1 H2 := by
  refine ⟨by simp [trajectoryClamp], ?_, ?_⟩
  · intro i hi hi2 u1 u2 v1 v2
    simp only [trajectoryClamp, List.get_eq_getElem, List.getElem_map] at *
    rw [clampLowHigh_id _ _ u1 u2, clampLowHigh_id _ _ v1 v2]
  · simp only [trajectoryClamp, List.map_map]
    refine List.map_congr_left (fun a _ => ?_)
    simp only [Function.comp_apply, clampLowHigh_idem]

/-- C10 witness: in the mixed trajectory [(-1, 10), (1, 2)] whose first
sample is out of range, the in-range sample (1, 2) at index 1 is left
unchanged by the clamp pass with H1 = 5 and H2 = 4. -/
theorem trajectoryClamp_frame_witness :
    (trajectoryClamp [((-1 : ℝ), (10 : ℝ)), (1, 2)] 5 4).get
        ⟨1, by simp [trajectoryClamp]⟩ =
      ([((-1 : ℝ), (10 : ℝ)), (1, 2)] : List (ℝ × ℝ)).get ⟨1, by simp⟩ :=
  (trajectoryClamp_frame [((-1 : ℝ), (10 : ℝ)), (1, 2)] 5 4).2.1 1 (by simp)
    (by simp [trajectoryClamp]) (by norm_num) (by norm_num) (by norm_num)
    (by norm_num)

/-- C7: the hydrograph is continuous at 12600 where it peaks at 2, rises
on [3600, 12600] and falls on [12600, 21600]. -/
theorem q_i_1_peak_continuous :
    ContinuousAt q_i_1 12600 ∧ q_i_1 12600 = 2 ∧
    MonotoneOn q_i_1 (Set.Icc 3600 12600) ∧
    AntitoneOn q_i_1 (Set.Icc 12600 21600) := by
  have hval : q_i_1 12600 = 2 := by
    rw [q_i_1_ramp_up 12600 (by norm_num) le_rfl]; norm_num
  have hleft : ContinuousWithinAt q_i_1 (Set.Iic 12600) 12600 := by
    have hg : ContinuousWithinAt (fun s : ℝ => 1 / 4500 * (s - 3600))
        (Set.Iic 12600) 12600 := (by fun_prop : Continuous
          (fun s : ℝ => 1 / 4500 * (s - 3600))).continuousWithinAt
    refine hg.congr_of_eventuallyEq ?_ ?_
    · have hmem : Set.Ioi (3600 : ℝ) ∈ 𝓝[Set.Iic (12600 : ℝ)] 12600 :=
        mem_nhdsWithin_of_mem_nhds (Ioi_mem_nhds (by norm_num))
      filter_upwards [hmem, self_mem_nhdsWithin] with s hs1 hs2
      exact q_i_1_ramp_up s (le_of_lt hs1) hs2
    · rw [hval]; norm_num
  have hright : ContinuousWithinAt q_i_1 (Set.Ici 12600) 12600 := by
    have hg : ContinuousWithinAt (fun s : ℝ => -1 / 4500 * (s - 21600))
        (Set.Ici 12600) 12600 := (by fun_prop : Continuous
          (fun s : ℝ => -1 / 4500 * (s - 21600))).continuousWithinAt
    refine hg.congr_of_eventuallyEq ?_ ?_
    · have hmem : Set.Iio (21600 : ℝ) ∈ 𝓝[Set.Ici (12600 : ℝ)] 12600 :=
        mem_nhdsWithin_of_mem_nhds (Iio_mem_nhds (by norm_num))
      filter_upwards [hmem, self_mem_nhdsWithin] with s hs1 hs2
      exact q_i_1_ramp_down s hs2 (le_of_lt hs1)
    · rw [hval]; norm_num
  have hcont : ContinuousAt q_i_1 12600 := by
    have hu := hleft.union hright
    rw [Set.Iic_union_Ici] at hu
    exact (continuousWithinAt_univ q_i_1 12600).mp hu
  refine ⟨hcont, hval, ?_, ?_⟩
  · intro a ha b hb hab
    rw [q_i_1_ramp_up a ha.1 ha.2, q_i_1_ramp_up b hb.1 hb.2]
    linarith
  · intro a ha b hb hab
    rw [q_i_1_ramp_down a ha.1 ha.2, q_i_1_ramp_down b hb.1 hb.2]
    linarith

/-- C9: the orchestrator fixes exactly the reference parameter values and
a 1000-sample grid that starts at 0 and whose last sample 288001 covers
the closed horizon ending at 288000 seconds. -/
theorem reference_scenario :
    D1 = 0.2 ∧ D2 = 0.2 ∧ A1 = 2000 ∧ A2 = 1000 ∧ H1 = 5 ∧ H2 = 4 ∧
    h1_0 = 0 ∧ h2_0 = 0 ∧
    t.length = 1000 ∧ t[0]? = some 0 ∧ t[999]? = some (80 * 3600 + 1) ∧
    (288000 : ℝ) ≤ 80 * 3600 + 1 := by
  refine ⟨rfl, rfl, rfl, rfl, rfl, rfl, rfl, rfl, ?_, ?_, ?_, by norm_num⟩
  · rw [t, linspace, List.length_map, List.length_range]
  · rw [t, linspace, List.getElem?_map,
      List.getElem?_range (by norm_num : (0 : ℕ) < 1000), Option.map_some']
    norm_num
  · rw [t, linspace, List.getElem?_map,
      List.getElem?_range (by norm_num : (999 : ℕ) < 1000), Option.map_some']
    norm_num

/-- C3 counterexample: a parameter record with D1 = -1 violates the
validity condition of the spec, yet the script still reaches the
integrator call and never raises an InvalidParameter error, because its
straight-line code contains no validation step at all. -/
theorem no_validation_counterexample :
    ¬ paramsValid_spec ⟨-1, 0.2, 2000, 1000, 5, 4, 0, 0⟩ ∧
    ScriptStep.invokeIntegrator ∈ scriptTrace ⟨-1, 0.2, 2000, 1000, 5, 4, 0, 0⟩ ∧
    ScriptStep.raiseInvalidParameter ∉ scriptTrace ⟨-1, 0.2, 2000, 1000, 5, 4, 0, 0⟩ := by
  refine ⟨fun h => ?_, by simp [scriptTrace], by simp [scriptTrace]⟩
  have := h.1
  norm_num at this

/-- C3 amended: the script performs no parameter validation — for every
parameter record it unconditionally reaches the integrator call and never
surfaces an InvalidParameter error — and the hard-coded reference
parameters happen to satisfy every validity condition of the spec. -/
theorem no_validation_amended :
    (∀ p : Params, ScriptStep.invokeIntegrator ∈ scriptTrace p ∧
      ScriptStep.raiseInvalidParameter ∉ scriptTrace p) ∧
    paramsValid_spec referenceParams := by
  refine ⟨fun p => ⟨by simp [scriptTrace], by simp [scriptTrace]⟩, ?_⟩
  simp only [paramsValid_spec, referenceParams, D1, D2, A1, A2, H1, H2, h1_0, h2_0]
  norm_num

end TwoPonds
